import Mathlib

/-!
Verification of the kettle keep-warm coordination engine
(`custom_components/kettle_protocol/sensor.py` and friends).

Modelling conventions:
* Live entity states (`hass.states.get(entity_id)`) are a function
  `String → Option String`: `none` means the entity is missing, `some v`
  is the state field of the state object (state objects are always truthy
  in Python, so object-truthiness is `Option.isSome`).
* Wall-clock time is modelled at whole-second granularity: a UTC instant
  is an `Int` (seconds), a `timedelta` is an `Int` (seconds);
  `timedelta(minutes=m)` is `60 * m` and `td.total_seconds()` is the
  integer itself.
* The Clock collaborator (`dt_util`) is external to the repository: the
  environment carries `now : Int`, its serialization `nowIso : String`
  (what `utcnow().isoformat()` returns) and an arbitrary parse function
  `parse : String → Option Int` standing for `dt_util.parse_datetime`
  (returning `none` both for a `None` result and for a raised exception,
  which the source catches in `_start_dt`).
* Side effects are recorded as an ordered trace of `Effect`s.  Awaited
  calls (`await store.async_save`, `await hass.services.async_call`)
  and detached tasks (`hass.async_create_task(...)`) are distinct
  constructors, because only awaited calls can raise into the caller.
-/

/-- Runtime state of the protocol: `RuntimeState.start_ts` from the source,
the optional ISO start-timestamp string (the anchor). -/
structure RuntimeState where
  start_ts : Option String
deriving DecidableEq, Repr

/-- Immutable per-instance configuration collected in `async_setup_entry`. -/
structure Config where
  status_entity : String
  keep_warm_switch : String
  max_minutes : Int
  warm_value : String
  abort_statuses : List String
deriving DecidableEq, Repr

/-- The external world as seen by the coordinator at one instant. -/
structure Env where
  states : String → Option String
  now : Int
  nowIso : String
  parse : String → Option Int

/-- One observable side effect of the engine, in program order.
`save` is an awaited `store.async_save({"start_ts": v})`; `spawnPersist`
and `spawnTick` are `hass.async_create_task(...)` detached tasks. -/
inductive Effect where
  | turnOff (entity : String)
  | save (start_ts : Option String)
  | notify (title message : String)
  | spawnPersist (start_ts : Option String)
  | spawnTick
  | subscribe (entities : List String)
  | scheduleLater (seconds : Int)
deriving DecidableEq, Repr

/-- A single-quote character, used in the status-abort reason string. -/
def squote : String := (Char.ofNat 39).toString

/-- Character-level model of Python `str.split(",")`. -/
def splitCommaAux : List Char → List Char → List String
  | [], acc => [String.mk acc.reverse]
  | c :: rest, acc =>
    if c = ',' then String.mk acc.reverse :: splitCommaAux rest []
    else splitCommaAux rest (c :: acc)

/-- Split a string at every comma (Python `str.split(",")`). -/
def splitComma (s : String) : List String :=
  splitCommaAux s.toList []

/-- Model of Python `str.strip()`: drop leading and trailing
whitespace. -/
def pyStrip (s : String) : String :=
  String.mk (((s.toList.dropWhile Char.isWhitespace).reverse.dropWhile
    Char.isWhitespace).reverse)

/-- `_parse_abort_statuses`: split a comma-separated string, strip
whitespace around each token, drop empty tokens. -/
def _parse_abort_statuses (raw : String) : List String :=
  ((splitComma raw).map pyStrip).filter (fun p => p ≠ "")

/-- Construction in `async_setup_entry` of the runtime state from the
store: `stored = await store.async_load() or {}` then
`RuntimeState(start_ts=stored.get("start_ts"))`.  The store content is
`none` when no data was ever saved, else `some v` where `v` is the
saved `start_ts` mapping entry. -/
def setupRuntimeState (stored : Option (Option String)) : RuntimeState :=
  match stored with
  | none => { start_ts := none }
  | some v => { start_ts := v }

/-- `KettleCoordinator.is_protocol_active`: true iff the keep-warm
switch has a live state equal to "on" and the anchor is
non-null. -/
def is_protocol_active (cfg : Config) (st : RuntimeState) (env : Env) : Bool :=
  match env.states cfg.keep_warm_switch with
  | none => false
  | some v => if v ≠ "on" then false else st.start_ts.isSome

/-- `KettleCoordinator._start_dt`: parse the stored ISO timestamp;
`none` for a null anchor, an unparsable string, or a parse exception. -/
def _start_dt (st : RuntimeState) (env : Env) : Option Int :=
  match st.start_ts with
  | none => none
  | some s => env.parse s

/-- `KettleCoordinator.remaining_td`: remaining time of the keep-warm
cap, clamped at zero; `none` when inactive or the anchor is unparsable. -/
def remaining_td (cfg : Config) (st : RuntimeState) (env : Env) : Option Int :=
  if is_protocol_active cfg st env then
    match _start_dt st env with
    | none => none
    | some start =>
      let elapsed := env.now - start
      let cap := 60 * cfg.max_minutes
      let rem := cap - elapsed
      some (if rem < 0 then 0 else rem)
  else none

/-- Zero-padded two-digit rendering of a number (Python `f"{n:02d}"`
for non-negative `n`). -/
def pad2 (n : Nat) : String :=
  if n < 10 then "0" ++ toString n else toString n

/-- `KettleCoordinator.remaining_mmss`: remaining time as `MM:SS`. -/
def remaining_mmss (cfg : Config) (st : RuntimeState) (env : Env) : Option String :=
  match remaining_td cfg st env with
  | none => none
  | some rem =>
    let total := rem.toNat
    let m := total / 60
    let s := total % 60
    some (pad2 m ++ ":" ++ pad2 s)

/-- `KettleCoordinator.status_live`: human-friendly status label with
optional countdown.  `if mmss:` in the source is false for both `None`
and the empty string, hence the emptiness test. -/
def status_live (cfg : Config) (st : RuntimeState) (env : Env) : String :=
  let s := (env.states cfg.status_entity).getD "unknown"
  if s = cfg.warm_value ∧ is_protocol_active cfg st env then
    match remaining_mmss cfg st env with
    | some mmss => if mmss ≠ "" then "Warm (" ++ mmss ++ ")" else "Warm"
    | none => "Warm"
  else if s = "heating" then "Heating"
  else if s = "standby" then "Standby"
  else if s = cfg.warm_value then "Warm"
  else s

/-- `KettleCoordinator._force_keep_warm_off`: awaited switch turn-off
command, then `_clear` (anchor := null, awaited save), then awaited
notification call.  Returns the new runtime state and the effect trace
in program order. -/
def _force_keep_warm_off (cfg : Config) (reason : String) :
    RuntimeState × List Effect :=
  ({ start_ts := none },
   [Effect.turnOff cfg.keep_warm_switch,
    Effect.save none,
    Effect.notify "Kettle" (reason ++ ". Keep Warm turned OFF.")])

/-- The reason string of a status abort: the literal "Abort: status "
followed by the status value wrapped in single quotes, as formatted by
the source f-string. -/
def statusAbortReason (s : String) : String :=
  "Abort: status " ++ squote ++ s ++ squote

/-- The reason string of a timeout abort:
`f"Max time reached ({self.max_minutes} min)"`. -/
def timeoutReason (cfg : Config) : String :=
  "Max time reached (" ++ toString cfg.max_minutes ++ " min)"

/-- The timeout-enforcement tail of `async_tick` (runs when the
status-abort branch did not fire). -/
def _tick_timeout (cfg : Config) (st : RuntimeState) (env : Env) :
    RuntimeState × List Effect :=
  if is_protocol_active cfg st env then
    match remaining_td cfg st env with
    | some rem => if rem ≤ 0 then _force_keep_warm_off cfg (timeoutReason cfg) else (st, [])
    | none => (st, [])
  else (st, [])

/-- `KettleCoordinator.async_tick`: status-abort check first (a missing
status entity gives `s = None`, which is never `in` a list of strings),
then timeout enforcement. -/
def async_tick (cfg : Config) (st : RuntimeState) (env : Env) :
    RuntimeState × List Effect :=
  match env.states cfg.status_entity with
  | some s =>
    if is_protocol_active cfg st env ∧ s ∈ cfg.abort_statuses then
      _force_keep_warm_off cfg (statusAbortReason s)
    else _tick_timeout cfg st env
  | none => _tick_timeout cfg st env

/-- `KettleCoordinator._handle_state_event`: the event payload carries
`entity_id` and an optional new state object (here, its `.state`
string).  A missing `new_state` returns immediately.  Anchor updates
persist via a detached task; one eager tick task is spawned at the
end. -/
def _handle_state_event (cfg : Config) (st : RuntimeState) (env : Env)
    (entity_id : Option String) (new_state : Option String) :
    RuntimeState × List Effect :=
  match new_state with
  | none => (st, [])
  | some v =>
    let step : RuntimeState × List Effect :=
      if entity_id = some cfg.keep_warm_switch then
        if v = "on" then
          match st.start_ts with
          | none => ({ start_ts := some env.nowIso },
                     [Effect.spawnPersist (some env.nowIso)])
          | some _ => (st, [])
        else
          match st.start_ts with
          | some _ => ({ start_ts := none }, [Effect.spawnPersist none])
          | none => (st, [])
      else (st, [])
    (step.1, step.2 ++ [Effect.spawnTick])

/-- `KettleCoordinator.async_start`: subscribe to the two entities and
schedule the first tick via `_ensure_tick` (1 s when active, 10 s when
idle).  No persistence happens here. -/
def async_start (cfg : Config) (st : RuntimeState) (env : Env) : List Effect :=
  [Effect.subscribe [cfg.keep_warm_switch, cfg.status_entity],
   Effect.scheduleLater (if is_protocol_active cfg st env then 1 else 10)]

/-- Whether one engine invocation with effect trace `effs` raises a
persistence error to its caller, given which saved values make
`store.async_save` raise: only awaited `save` effects can raise; a
failure inside a detached `spawnPersist` task surfaces in that task,
not in the invocation. -/
def invocationRaises (effs : List Effect) (saveFails : Option String → Bool) : Bool :=
  effs.any (fun e =>
    match e with
    | Effect.save v => saveFails v
    | _ => false)

/-- A concrete configuration used to instantiate theorems. -/
def cfgA : Config :=
  { status_entity := "kettle_status", keep_warm_switch := "kettle_switch",
    max_minutes := 30, warm_value := "Warm", abort_statuses := ["standby"] }

/-- A concrete clock-parse function: only the string "T0" parses, to
instant 0. -/
def parseA : String → Option Int :=
  fun s => if s = "T0" then some 0 else none

/-- A concrete environment: switch "on", status "Warm", 1705 s after
the anchor instant (95 s left of the 30-minute cap). -/
def envWarm : Env :=
  { states := fun e =>
      if e = "kettle_switch" then some "on"
      else if e = "kettle_status" then some "Warm"
      else none,
    now := 1705, nowIso := "T1", parse := parseA }

/-- A concrete environment: switch "on", status "standby", only 10 s
elapsed (far from timeout). -/
def envStandby : Env :=
  { states := fun e =>
      if e = "kettle_switch" then some "on"
      else if e = "kettle_status" then some "standby"
      else none,
    now := 10, nowIso := "T1", parse := parseA }

/-- A concrete environment: switch "on", status entity missing, far
past the 30-minute cap. -/
def envNoStatus : Env :=
  { states := fun e => if e = "kettle_switch" then some "on" else none,
    now := 99999, nowIso := "T1", parse := parseA }

/-- A concrete runtime state anchored at the parsable instant "T0". -/
def stA : RuntimeState := { start_ts := some "T0" }

/-- A runtime state whose anchor string does not parse. -/
def stGarbage : RuntimeState := { start_ts := some "garbage" }

/-- A configuration whose warm literal collides with the "heating"
normalization literal. -/
def cfgHeat : Config :=
  { status_entity := "kettle_status", keep_warm_switch := "kettle_switch",
    max_minutes := 30, warm_value := "heating", abort_statuses := ["standby"] }

/-- A concrete environment: switch missing (protocol inactive), status
"heating". -/
def envHeating : Env :=
  { states := fun e => if e = "kettle_status" then some "heating" else none,
    now := 0, nowIso := "T1", parse := parseA }

/-- An unparsable anchor has no remaining time. -/
theorem remaining_td_eq_none_of_unparsable (cfg : Config) (st : RuntimeState)
    (env : Env) (ts : String) (hts : st.start_ts = some ts)
    (hp : env.parse ts = none) :
    remaining_td cfg st env = none := by
  unfold remaining_td _start_dt
  simp [hts, hp]

/-- The timeout tail does nothing when there is no remaining-time value. -/
theorem tick_timeout_of_none (cfg : Config) (st : RuntimeState) (env : Env)
    (h : remaining_td cfg st env = none) :
    _tick_timeout cfg st env = (st, []) := by
  unfold _tick_timeout
  rw [h]
  split <;> rfl

/-- The timeout tail does nothing while time remains. -/
theorem tick_timeout_of_pos (cfg : Config) (st : RuntimeState) (env : Env)
    (r : Int) (h : remaining_td cfg st env = some r) (hpos : 0 < r) :
    _tick_timeout cfg st env = (st, []) := by
  unfold _tick_timeout
  rw [h]
  have hne : ¬ (r ≤ 0) := by omega
  split <;> simp [hne]

/-- The timeout tail does nothing when the protocol is inactive. -/
theorem tick_timeout_of_inactive (cfg : Config) (st : RuntimeState) (env : Env)
    (h : is_protocol_active cfg st env = false) :
    _tick_timeout cfg st env = (st, []) := by
  unfold _tick_timeout
  simp [h]

/-- The timeout tail force-aborts when active with exhausted remaining
time. -/
theorem tick_timeout_force (cfg : Config) (st : RuntimeState) (env : Env)
    (r : Int) (hact : is_protocol_active cfg st env = true)
    (h : remaining_td cfg st env = some r) (hle : r ≤ 0) :
    _tick_timeout cfg st env = _force_keep_warm_off cfg (timeoutReason cfg) := by
  unfold _tick_timeout
  rw [h]
  simp [hact, hle]

/-- Unfolding `async_tick` when the status entity has a live state. -/
theorem async_tick_status_some (cfg : Config) (st : RuntimeState) (env : Env)
    (s : String) (hs : env.states cfg.status_entity = some s) :
    async_tick cfg st env =
      if is_protocol_active cfg st env ∧ s ∈ cfg.abort_statuses then
        _force_keep_warm_off cfg (statusAbortReason s)
      else _tick_timeout cfg st env := by
  unfold async_tick
  rw [hs]

/-- Unfolding `async_tick` when the status entity is missing. -/
theorem async_tick_status_none (cfg : Config) (st : RuntimeState) (env : Env)
    (hs : env.states cfg.status_entity = none) :
    async_tick cfg st env = _tick_timeout cfg st env := by
  unfold async_tick
  rw [hs]

/-- C1: `is_protocol_active` is true iff the keep-warm switch has live
state is exactly "on" and the anchor is non-null; consequently a state
loaded from the store with a non-null persisted anchor is immediately
active when the switch is live "on", and a switch left "on" with a
null persisted anchor is not active. -/
theorem is_protocol_active_iff (cfg : Config) (st : RuntimeState) (env : Env) :
    (is_protocol_active cfg st env = true ↔
      (env.states cfg.keep_warm_switch = some "on" ∧ st.start_ts ≠ none)) ∧
    (∀ ts : String, env.states cfg.keep_warm_switch = some "on" →
      is_protocol_active cfg (setupRuntimeState (some (some ts))) env = true) ∧
    is_protocol_active cfg (setupRuntimeState (some none)) env = false := by
  refine ⟨?_, ?_, ?_⟩
  · unfold is_protocol_active
    cases h : env.states cfg.keep_warm_switch with
    | none => simp [h]
    | some v =>
      by_cases hv : v = "on" <;>
        simp [hv, Option.isSome_iff_ne_none]
  · intro ts hon
    unfold is_protocol_active setupRuntimeState
    simp [hon]
  · unfold is_protocol_active setupRuntimeState
    cases h : env.states cfg.keep_warm_switch with
    | none => rfl
    | some v => by_cases hv : v = "on" <;> simp [hv]

/-- C1 witness: in a concrete environment with the switch live "on",
the state recovered from a persisted anchor is active. -/
theorem is_protocol_active_iff_witness :
    is_protocol_active cfgA (setupRuntimeState (some (some "T0"))) envWarm = true :=
  (is_protocol_active_iff cfgA stA envWarm).2.1 "T0" (by decide)

/-- C3: `_force_keep_warm_off` produces exactly three effects in
program order — the switch turn-off command first, then the awaited
save of the cleared anchor, then the notification carrying the reason —
and the resulting runtime state has a null anchor.  In particular the
turn-off command (index 0) precedes the anchor clear (index 1). -/
theorem force_keep_warm_off_effects (cfg : Config) (reason : String) :
    (_force_keep_warm_off cfg reason).1.start_ts = none ∧
    (_force_keep_warm_off cfg reason).2 =
      [Effect.turnOff cfg.keep_warm_switch,
       Effect.save none,
       Effect.notify "Kettle" (reason ++ ". Keep Warm turned OFF.")] := by
  exact ⟨rfl, rfl⟩

/-- C5: `remaining_td` is `none` when the protocol is not active or the
anchor does not parse; when active with a parsable anchor it equals
`max 0 (cap − elapsed)`; and any present value is non-negative. -/
theorem remaining_td_spec (cfg : Config) (st : RuntimeState) (env : Env) :
    (is_protocol_active cfg st env = false → remaining_td cfg st env = none) ∧
    (∀ ts, st.start_ts = some ts → env.parse ts = none →
      remaining_td cfg st env = none) ∧
    (∀ ts t0, is_protocol_active cfg st env = true →
      st.start_ts = some ts → env.parse ts = some t0 →
      remaining_td cfg st env =
        some (max 0 (60 * cfg.max_minutes - (env.now - t0)))) ∧
    (∀ r, remaining_td cfg st env = some r → 0 ≤ r) := by
  refine ⟨?_, ?_, ?_, ?_⟩
  · intro h
    unfold remaining_td
    simp [h]
  · intro ts hts hparse
    unfold remaining_td _start_dt
    simp [hts, hparse]
  · intro ts t0 hact hts hparse
    unfold remaining_td _start_dt
    simp [hact, hts, hparse]
    split <;> omega
  · intro r hr
    unfold remaining_td _start_dt at hr
    by_cases hact : is_protocol_active cfg st env = true
    · simp [hact] at hr
      cases hts : st.start_ts with
      | none => simp [hts] at hr
      | some ts =>
        simp [hts] at hr
        cases hp : env.parse ts with
        | none => simp [hp] at hr
        | some t0 =>
          simp [hp] at hr
          omega
    · simp [Bool.not_eq_true] at hact
      simp [hact] at hr

/-- C5 witness: 1705 s after a parsable anchor with a 30-minute cap,
the remaining time is 95 s. -/
theorem remaining_td_spec_witness :
    remaining_td cfgA stA envWarm = some 95 := by
  have h := (remaining_td_spec cfgA stA envWarm).2.2.1 "T0" 0 (by decide)
    (by decide) (by decide)
  simpa using h

/-- C2: on a tick, an active protocol whose live status value is in the
abort list force-aborts with the status reason, with no condition on
remaining time; otherwise an active protocol with exhausted remaining
time force-aborts with the timeout reason; otherwise the tick changes
nothing and emits nothing. -/
theorem async_tick_spec (cfg : Config) (st : RuntimeState) (env : Env) :
    (∀ s, env.states cfg.status_entity = some s →
      is_protocol_active cfg st env = true → s ∈ cfg.abort_statuses →
      async_tick cfg st env = _force_keep_warm_off cfg (statusAbortReason s)) ∧
    (∀ r, is_protocol_active cfg st env = true →
      (∀ s, env.states cfg.status_entity = some s → s ∉ cfg.abort_statuses) →
      remaining_td cfg st env = some r → r ≤ 0 →
      async_tick cfg st env = _force_keep_warm_off cfg (timeoutReason cfg)) ∧
    ((is_protocol_active cfg st env = false ∨
      ((∀ s, env.states cfg.status_entity = some s → s ∉ cfg.abort_statuses) ∧
       (∀ r, remaining_td cfg st env = some r → 0 < r))) →
      async_tick cfg st env = (st, [])) := by
  refine ⟨?_, ?_, ?_⟩
  · intro s hs hact hmem
    rw [async_tick_status_some cfg st env s hs]
    simp [hact, hmem]
  · intro r hact hnot hrem hle
    cases hs : env.states cfg.status_entity with
    | none =>
      rw [async_tick_status_none cfg st env hs]
      exact tick_timeout_force cfg st env r hact hrem hle
    | some s =>
      rw [async_tick_status_some cfg st env s hs]
      have hn : s ∉ cfg.abort_statuses := hnot s hs
      simp [hn]
      exact tick_timeout_force cfg st env r hact hrem hle
  · intro h
    have htail : _tick_timeout cfg st env = (st, []) := by
      rcases h with hact | ⟨_, hpos⟩
      · exact tick_timeout_of_inactive cfg st env hact
      · cases hrem : remaining_td cfg st env with
        | none => exact tick_timeout_of_none cfg st env hrem
        | some r => exact tick_timeout_of_pos cfg st env r hrem (hpos r hrem)
    cases hs : env.states cfg.status_entity with
    | none => rw [async_tick_status_none cfg st env hs]; exact htail
    | some s =>
      rw [async_tick_status_some cfg st env s hs]
      rcases h with hact | ⟨hnot, _⟩
      · simp [hact]; exact htail
      · have hn : s ∉ cfg.abort_statuses := hnot s hs
        simp [hn]; exact htail

/-- C2 witness: while active with plenty of remaining time (1790 s of a
30-minute cap), a live status of "standby" force-aborts with the status
reason on the next tick. -/
theorem async_tick_spec_witness :
    async_tick cfgA stA envStandby =
      _force_keep_warm_off cfgA (statusAbortReason "standby") :=
  (async_tick_spec cfgA stA envStandby).1 "standby" (by decide) (by decide)
    (by decide)

/-- C10: when the status entity has no live state, a tick can only do
nothing or force-abort with the timeout reason — never a status abort —
and the parsed abort-status list never contains the empty string. -/
theorem tick_status_missing_no_status_abort (cfg : Config) (st : RuntimeState)
    (env : Env) (raw : String)
    (h : env.states cfg.status_entity = none) :
    (async_tick cfg st env = (st, []) ∨
     async_tick cfg st env = _force_keep_warm_off cfg (timeoutReason cfg)) ∧
    "" ∉ _parse_abort_statuses raw := by
  constructor
  · rw [async_tick_status_none cfg st env h]
    cases hrem : remaining_td cfg st env with
    | none => exact Or.inl (tick_timeout_of_none cfg st env hrem)
    | some r =>
      by_cases hr : r ≤ 0
      · by_cases hact : is_protocol_active cfg st env = true
        · exact Or.inr (tick_timeout_force cfg st env r hact hrem hr)
        · exact Or.inl (tick_timeout_of_inactive cfg st env
            (by simpa using hact))
      · exact Or.inl (tick_timeout_of_pos cfg st env r hrem (by omega))
  · intro hmem
    simp [_parse_abort_statuses] at hmem

/-- C10 witness: with the status entity missing and the cap long
exceeded, the concrete tick outcome is covered by the
nothing-or-timeout disjunction, and a concrete raw config string parses
to a list without the empty string. -/
theorem tick_status_missing_no_status_abort_witness :
    (async_tick cfgA stA envNoStatus = (stA, []) ∨
     async_tick cfgA stA envNoStatus =
       _force_keep_warm_off cfgA (timeoutReason cfgA)) ∧
    "" ∉ _parse_abort_statuses " standby , boil " :=
  tick_status_missing_no_status_abort cfgA stA envNoStatus " standby , boil "
    (by decide)

/-- C4 counterexample: with a non-null but unparsable persisted anchor
and the switch live "on", `is_protocol_active` is true — the engine
does not treat this state as inactive, contrary to the claim (while
`remaining_td` is indeed absent). -/
theorem unparsable_anchor_active_counterexample :
    is_protocol_active cfgA stGarbage envWarm = true ∧
    remaining_td cfgA stGarbage envWarm = none := by
  constructor
  · decide
  · decide

/-- C4 amended: an unparsable anchor never crashes any query or tick
(all the modelled operations are total functions); `remaining_td` and
`remaining_mmss` are absent, the timeout path can never force an abort
(a tick either does nothing or performs a status abort), but
`is_protocol_active` is true exactly when the switch is live "on" —
the unparsable anchor counts as armed for the activity query. -/
theorem unparsable_anchor_fail_safe (cfg : Config) (st : RuntimeState)
    (env : Env) (ts : String) (hts : st.start_ts = some ts)
    (hp : env.parse ts = none) :
    remaining_td cfg st env = none ∧
    remaining_mmss cfg st env = none ∧
    (is_protocol_active cfg st env = true ↔
      env.states cfg.keep_warm_switch = some "on") ∧
    (async_tick cfg st env = (st, []) ∨
     ∃ s, env.states cfg.status_entity = some s ∧ s ∈ cfg.abort_statuses ∧
       is_protocol_active cfg st env = true ∧
       async_tick cfg st env = _force_keep_warm_off cfg (statusAbortReason s)) := by
  have hrem := remaining_td_eq_none_of_unparsable cfg st env ts hts hp
  refine ⟨hrem, ?_, ?_, ?_⟩
  · unfold remaining_mmss
    rw [hrem]
  · unfold is_protocol_active
    cases h : env.states cfg.keep_warm_switch with
    | none => simp
    | some v => by_cases hv : v = "on" <;> simp [hv, hts]
  · cases hs : env.states cfg.status_entity with
    | none =>
      exact Or.inl (by
        rw [async_tick_status_none cfg st env hs]
        exact tick_timeout_of_none cfg st env hrem)
    | some s =>
      by_cases hc : is_protocol_active cfg st env = true ∧ s ∈ cfg.abort_statuses
      · refine Or.inr ⟨s, rfl, hc.2, hc.1, ?_⟩
        rw [async_tick_status_some cfg st env s hs]
        simp [hc.1, hc.2]
      · refine Or.inl ?_
        rw [async_tick_status_some cfg st env s hs, if_neg hc]
        exact tick_timeout_of_none cfg st env hrem

/-- A present `remaining_mmss` rendering is never the empty string (it
always contains a colon), so Python string-truthiness of the rendering
coincides with its presence. -/
theorem remaining_mmss_ne_empty (cfg : Config) (st : RuntimeState) (env : Env)
    (m : String) (h : remaining_mmss cfg st env = some m) : m ≠ "" := by
  unfold remaining_mmss at h
  cases hrem : remaining_td cfg st env with
  | none => rw [hrem] at h; cases h
  | some r =>
    rw [hrem] at h
    simp only [Option.some.injEq] at h
    intro hemp
    rw [← h] at hemp
    have hlen := congrArg String.length hemp
    simp [String.length_append] at hlen
    exact absurd hlen.1.2 (by decide)

/-- C9 counterexample: with `warm_value = "heating"`, a live status of
"heating" while the protocol is inactive renders as "Heating" — but the
clause of the claim for `s` equal to `warm_value` with an inactive protocol
demands "Warm" for the same input, so the claimed enumeration fails. -/
theorem status_live_warm_collision_counterexample :
    is_protocol_active cfgHeat { start_ts := none } envHeating = false ∧
    (envHeating.states cfgHeat.status_entity).getD "unknown"
      = cfgHeat.warm_value ∧
    status_live cfgHeat { start_ts := none } envHeating = "Heating" := by
  exact ⟨by decide, by decide, by decide⟩

/-- C9 amended: `live_status_label` renders "Warm (MM:SS)" when the
live status equals the warm literal, the protocol is active, and the
remaining time is available; "Warm" when the live status equals the
warm literal, the protocol is active, and the remaining time is
unavailable; "Heating"/"Standby" for the literals "heating"/"standby"
whenever the active-warm branch does not apply — these two
normalizations take precedence over the plain warm rendering when the
protocol is inactive; "Warm" for an inactive warm-literal status that
is neither "heating" nor "standby"; any other value passes through
unchanged; and a missing status entity is first replaced by the
sentinel "unknown", which then follows the same rules. -/
theorem status_live_spec (cfg : Config) (st : RuntimeState) (env : Env)
    (s : String) (hs : (env.states cfg.status_entity).getD "unknown" = s) :
    (∀ m, s = cfg.warm_value → is_protocol_active cfg st env = true →
      remaining_mmss cfg st env = some m →
      status_live cfg st env = "Warm (" ++ m ++ ")") ∧
    (s = cfg.warm_value → is_protocol_active cfg st env = true →
      remaining_mmss cfg st env = none →
      status_live cfg st env = "Warm") ∧
    (s = "heating" →
      ¬(s = cfg.warm_value ∧ is_protocol_active cfg st env = true) →
      status_live cfg st env = "Heating") ∧
    (s = "standby" →
      ¬(s = cfg.warm_value ∧ is_protocol_active cfg st env = true) →
      status_live cfg st env = "Standby") ∧
    (s = cfg.warm_value → is_protocol_active cfg st env = false →
      s ≠ "heating" → s ≠ "standby" →
      status_live cfg st env = "Warm") ∧
    (s ≠ cfg.warm_value → s ≠ "heating" → s ≠ "standby" →
      status_live cfg st env = s) ∧
    (env.states cfg.status_entity = none → s = "unknown") := by
  subst hs
  unfold status_live
  refine ⟨?_, ?_, ?_, ?_, ?_, ?_, ?_⟩
  · intro m hw hact hm
    rw [if_pos ⟨hw, hact⟩, hm]
    simp [remaining_mmss_ne_empty cfg st env m hm]
  · intro hw hact hm
    rw [if_pos ⟨hw, hact⟩, hm]
  · intro hh hno
    rw [if_neg hno, if_pos hh]
  · intro hst hno
    rw [if_neg hno]
    by_cases hh : (env.states cfg.status_entity).getD "unknown" = "heating"
    · rw [hst] at hh; exact absurd hh (by decide)
    · rw [if_neg hh, if_pos hst]
  · intro hw hact hh hst
    have hno : ¬((env.states cfg.status_entity).getD "unknown" = cfg.warm_value
        ∧ is_protocol_active cfg st env = true) := by
      intro hc
      rw [hact] at hc
      exact Bool.false_ne_true hc.2
    rw [if_neg hno, if_neg hh, if_neg hst, if_pos hw]
  · intro hw hh hst
    have hno : ¬((env.states cfg.status_entity).getD "unknown" = cfg.warm_value
        ∧ is_protocol_active cfg st env = true) := fun hc => hw hc.1
    rw [if_neg hno, if_neg hh, if_neg hst, if_neg hw]
  · intro hnone
    rw [hnone]
    rfl

/-- C9 amended witness: status "Warm", warm literal "Warm", active with
95 s remaining renders as "Warm (01:35)". -/
theorem status_live_spec_witness :
    status_live cfgA stA envWarm = "Warm (" ++ "01:35" ++ ")" :=
  (status_live_spec cfgA stA envWarm "Warm" (by decide)).1 "01:35" rfl
    (by decide) (by decide)

/-- C6: a state-change notification for the keep-warm switch with value
"on" and a null anchor sets the anchor to the current serialized UTC
time and schedules its persistence; with value "on" and a non-null
anchor it changes nothing (idempotence); with a value other than "on"
and a non-null anchor it clears the anchor and schedules its
persistence. -/
theorem handle_switch_event_anchor (cfg : Config) (st : RuntimeState)
    (env : Env) (v : String) :
    (v = "on" → st.start_ts = none →
      _handle_state_event cfg st env (some cfg.keep_warm_switch) (some v) =
        ({ start_ts := some env.nowIso },
         [Effect.spawnPersist (some env.nowIso), Effect.spawnTick])) ∧
    (∀ t, v = "on" → st.start_ts = some t →
      _handle_state_event cfg st env (some cfg.keep_warm_switch) (some v) =
        (st, [Effect.spawnTick])) ∧
    (∀ t, v ≠ "on" → st.start_ts = some t →
      _handle_state_event cfg st env (some cfg.keep_warm_switch) (some v) =
        ({ start_ts := none },
         [Effect.spawnPersist none, Effect.spawnTick])) := by
  refine ⟨?_, ?_, ?_⟩
  · intro hv hts
    subst hv
    unfold _handle_state_event
    simp [hts]
  · intro t hv hts
    subst hv
    unfold _handle_state_event
    simp [hts]
  · intro t hv hts
    unfold _handle_state_event
    simp [hv, hts]

/-- C6 witness: a concrete "on" notification with a null anchor anchors
at the serialized now of the environment ("T1") and schedules
persistence. -/
theorem handle_switch_event_anchor_witness :
    _handle_state_event cfgA { start_ts := none } envWarm
        (some cfgA.keep_warm_switch) (some "on") =
      ({ start_ts := some envWarm.nowIso },
       [Effect.spawnPersist (some envWarm.nowIso), Effect.spawnTick]) :=
  (handle_switch_event_anchor cfgA { start_ts := none } envWarm "on").1 rfl rfl

/-- C8 counterexample: a notification whose payload has no new state
(`new_state` is `None`) is dropped before the eager tick, so no tick
evaluation is scheduled — contrary to the claim that every delivered
notification runs one tick regardless of payload. -/
theorem handle_event_missing_payload_counterexample :
    _handle_state_event cfgA stA envWarm (some "kettle_status") none =
      (stA, []) ∧
    (_handle_state_event cfgA stA envWarm
        (some "kettle_status") none).2.count Effect.spawnTick = 0 := by
  exact ⟨rfl, rfl⟩

/-- C8 amended: every notification that carries a new state schedules
exactly one eager tick evaluation, regardless of which entity changed
and of the state value; a notification with a missing new state is
ignored entirely (no tick, no state change, no effect). -/
theorem handle_state_event_tick_count (cfg : Config) (st : RuntimeState)
    (env : Env) (eid : Option String) (v : String) :
    (_handle_state_event cfg st env eid (some v)).2.count Effect.spawnTick = 1 ∧
    _handle_state_event cfg st env eid none = (st, []) := by
  constructor
  · unfold _handle_state_event
    by_cases he : eid = some cfg.keep_warm_switch
    · by_cases hv : v = "on"
      · cases hts : st.start_ts with
        | none => simp [he, hv, hts, List.count_cons]
        | some t => simp [he, hv, hts, List.count_cons]
      · cases hts : st.start_ts with
        | none => simp [he, hv, hts, List.count_cons]
        | some t => simp [he, hv, hts, List.count_cons]
    · simp [he, List.count_cons]
  · rfl

/-- C7 counterexample: in `_handle_state_event` the persistence write
runs in a detached task (`spawnPersist`), not as an awaited save, so
even when every save raises, the invocation itself completes without
raising — contrary to the claim that a save failure makes
`handle_external_change` raise. -/
theorem handle_event_no_save_raise_counterexample :
    Effect.spawnPersist (some "T1") ∈
      (_handle_state_event cfgA { start_ts := none } envWarm
        (some "kettle_switch") (some "on")).2 ∧
    invocationRaises
      (_handle_state_event cfgA { start_ts := none } envWarm
        (some "kettle_switch") (some "on")).2 (fun _ => true) = false := by
  exact ⟨by decide, rfl⟩

/-- C7 amended: save failures are nowhere caught by the engine: a
failing save raises out of `_force_keep_warm_off` (whose save is
awaited); `async_start` performs no save at all; and in
`_handle_state_event` the persist runs as a detached scheduled task, so
that invocation never raises — the failure surfaces in the detached
task instead. -/
theorem persistence_failure_propagation (cfg : Config) (st : RuntimeState)
    (env : Env) (reason : String) (eid : Option String)
    (nv : Option String) (saveFails : Option String → Bool)
    (h : saveFails none = true) :
    invocationRaises (_force_keep_warm_off cfg reason).2 saveFails = true ∧
    invocationRaises (_handle_state_event cfg st env eid nv).2 saveFails
      = false ∧
    invocationRaises (async_start cfg st env) saveFails = false := by
  refine ⟨?_, ?_, ?_⟩
  · unfold invocationRaises _force_keep_warm_off
    simp [h]
  · unfold _handle_state_event invocationRaises
    cases nv with
    | none => rfl
    | some v =>
      by_cases he : eid = some cfg.keep_warm_switch
      · by_cases hv : v = "on"
        · cases hts : st.start_ts with
          | none => simp [he, hv, hts]
          | some t => simp [he, hv, hts]
        · cases hts : st.start_ts with
          | none => simp [he, hv, hts]
          | some t => simp [he, hv, hts]
      · simp [he]
  · unfold invocationRaises async_start
    simp

/-- C7 amended witness: with every save failing, the concrete
force-abort raises while a concrete switch-on notification and start do
not. -/
theorem persistence_failure_propagation_witness :
    invocationRaises
        (_force_keep_warm_off cfgA "Max time reached (30 min)").2
        (fun _ => true) = true ∧
    invocationRaises
        (_handle_state_event cfgA { start_ts := none } envWarm
          (some "kettle_switch") (some "on")).2 (fun _ => true) = false ∧
    invocationRaises (async_start cfgA { start_ts := none } envWarm)
        (fun _ => true) = false :=
  persistence_failure_propagation cfgA { start_ts := none } envWarm
    "Max time reached (30 min)" (some "kettle_switch") (some "on")
    (fun _ => true) rfl

/-- C4 amended witness: the concrete unparsable-anchor state with the
switch "on" and status "Warm" satisfies the fail-safe description. -/
theorem unparsable_anchor_fail_safe_witness :
    remaining_td cfgA stGarbage envWarm = none ∧
    remaining_mmss cfgA stGarbage envWarm = none ∧
    (is_protocol_active cfgA stGarbage envWarm = true ↔
      envWarm.states cfgA.keep_warm_switch = some "on") ∧
    (async_tick cfgA stGarbage envWarm = (stGarbage, []) ∨
     ∃ s, envWarm.states cfgA.status_entity = some s ∧
       s ∈ cfgA.abort_statuses ∧
       is_protocol_active cfgA stGarbage envWarm = true ∧
       async_tick cfgA stGarbage envWarm =
         _force_keep_warm_off cfgA (statusAbortReason s)) :=
  unparsable_anchor_fail_safe cfgA stGarbage envWarm "garbage" (by decide)
    (by decide)

